import Mathlib

/-!
Verification development for the "Aditi Daily Updates" client-side
session/tab-visibility reconciliation logic.

The definitions below are a shallow embedding of the TypeScript sources:

* `src/lib/tabSwitchUtil.ts` (simplified variant): `getAuthToken`,
  `getAuthTokenSync`, `preventNextTabSwitchRefresh`,
  `isReturningFromTabSwitch`, `ensureTokenInRequests`, `saveTabState`;
* the tab-switch prevention utility (two variants: the superseded one that
  fabricates responses, and the corrected one that forwards every request):
  `getTabId`, `isReturningFromTabSwitch`, `preventNextTabSwitchRefresh`,
  `saveTabState`, `restoreTabState`, `applySwitchPreventionToFetch`;
* `src/lib/supabaseClient.ts`: the client's custom `global.fetch`;
* the auth context: `checkSessionQuietly`, `refreshUser`,
  `handleVisibilityChange`, `updateUserData`;
* the dashboard's `fetchUserUpdates` with its 406 refresh-and-retry path.

Browser state (sessionStorage / localStorage / DOM classes) is passed
explicitly; timers are modelled by an event timeline in which a scheduled
`setTimeout` callback fires exactly at its deadline.
-/

namespace Aditi

/-! ## String helpers

JS `String.prototype.includes` / `startsWith`, modelled on the character
lists so that everything reduces by `decide`/`rfl`. -/

/-- `leadMatch needle hay`: `needle` is an initial segment of `hay`. -/
def leadMatch : List Char → List Char → Bool
  | [], _ => true
  | _ :: _, [] => false
  | a :: as, b :: bs => a == b && leadMatch as bs

/-- `containsSeq needle hay`: `needle` occurs contiguously inside `hay`. -/
def containsSeq (needle : List Char) : List Char → Bool
  | [] => needle.isEmpty
  | b :: bs => leadMatch needle (b :: bs) || containsSeq needle bs

/-- JS `hay.includes(needle)`. -/
def strContains (hay needle : String) : Bool :=
  containsSeq needle.data hay.data

/-- JS `hay.startsWith(needle)`. -/
def strStartsWith (hay needle : String) : Bool :=
  leadMatch needle.data hay.data

/-! ## The ReturningFlag marker under uncancelled removal timers

`preventNextTabSwitchRefresh` (both variants) and the `visibilitychange`
handler each do `setItem(key, value)` and then schedule
`setTimeout(() => removeItem(key), window)`.  No variant ever cancels a
previously scheduled removal.  `markerAt arms window t` is the content of
such a storage key at time `t`, given the (finitely many) times `arms` at
which it was set; the stored value is the arming time (the simplified
variant stores `Date.now().toString()`).  A removal firing at the same
instant as a set loses to the set, since the set runs synchronously inside
the event handler. -/

/-- Latest arming time that is `≤ t`, if any. -/
def latestArm : List Nat → Nat → Option Nat
  | [], _ => none
  | a :: rest, t =>
    match latestArm rest t with
    | none => if a ≤ t then some a else none
    | some b => if a ≤ t then some (max a b) else some b

/-- Content of the marker key at time `t`: the latest set value survives
unless some (possibly stale) removal timer fired strictly after it and at
or before `t`. -/
def markerAt (arms : List Nat) (window : Nat) (t : Nat) : Option Nat :=
  match latestArm arms t with
  | none => none
  | some L =>
      if arms.any (fun a => decide (L < a + window) && decide (a + window ≤ t)) then none
      else some L

/-- `isReturningFromTabSwitch` from `src/lib/tabSwitchUtil.ts` (simplified
variant): no browser window context → `false`; otherwise read the
`prevent_rapid_refresh` marker and report whether its timestamp is less
than 2000 ms old (JS number arithmetic, hence the `Int` subtraction). -/
def isReturningSimple (hasWindow : Bool) (marker : Option Nat) (now : Nat) : Bool :=
  if !hasWindow then false
  else
    match marker with
    | none => false
    | some ts => decide ((now : Int) - (ts : Int) < 2000)

/-- `isReturningFromTabSwitch` from the tab-switch prevention utility (both
the superseded and the corrected variant): true iff any of the four markers
is present — the `returning_from_tab_switch` sessionStorage key, the
`prevent_auto_refresh` sessionStorage key, or either of the two body CSS
classes.  Pure presence test; stored values are never inspected. -/
def isReturningFlags (hasWindow : Bool) (returningFlag preventFlag : Option Nat)
    (tabActiveClass dashboardClass : Bool) : Bool :=
  if !hasWindow then false
  else returningFlag.isSome || preventFlag.isSome || tabActiveClass || dashboardClass

/-! Windows used by the code: the simplified `preventNextTabSwitchRefresh`
removes its marker after 2000 ms and its reader compares against 2000 ms;
the utility variants remove `prevent_auto_refresh` after 5000 ms and the
`visibilitychange` handler removes `returning_from_tab_switch` and the
`tab-just-activated` body class after 2500 ms. -/

def SIMPLE_WINDOW : Nat := 2000
def PREVENT_REFRESH_WINDOW : Nat := 5000
def VISIBILITY_WINDOW : Nat := 2500

/-! ## JS values, storage, and tab-state records -/

/-- A small JS value universe for persisted records. -/
inductive JsVal
  | num (n : Nat)
  | str (s : String)
  | boolean (b : Bool)
deriving DecidableEq, Repr

/-- JS object-literal spread: an association list in insertion order, later
entries winning on lookup, as in a spread of the caller's fields over the
base record. -/
def jsLookup (fields : List (String × JsVal)) (k : String) : Option JsVal :=
  (fields.reverse.find? (fun p => p.1 == k)).map (fun p => p.2)

/-- `saveTabState` from the tab-switch prevention utility: the persisted
record is the caller's fields spread over a base of tabId, lastActive and
route. -/
def tabStateRecordUtil (tabId : String) (now : Nat) (route : String)
    (additional : List (String × JsVal)) : List (String × JsVal) :=
  [("tabId", JsVal.str tabId), ("lastActive", JsVal.num now), ("route", JsVal.str route)]
    ++ additional

/-- `saveTabState` from `src/lib/tabSwitchUtil.ts` (simplified variant): the
base record has only lastActive and route, no tabId. -/
def tabStateRecordSimple (now : Nat) (route : String)
    (additional : List (String × JsVal)) : List (String × JsVal) :=
  [("lastActive", JsVal.num now), ("route", JsVal.str route)] ++ additional

/-- `setItem`: functional update of a string-keyed store; the write wholly
replaces any previously stored value under the key. -/
def setItem {α : Type} (store : String → Option α) (k : String) (v : α) :
    String → Option α :=
  fun k2 => if k2 = k then some v else store k2

/-! ## restore() and the cached-identity read paths -/

/-- `restoreTabState`: reads the persisted record; an absent record gives a
null result; a JSON.parse failure is caught, logged and likewise turned
into null. The `Except` layer models an exception escaping to the caller;
`Except.error` never occurs. -/
def restoreTabState {α : Type} (parse : String → Except String α)
    (stored : Option String) : Except String (Option α) :=
  match stored with
  | none => Except.ok none
  | some s =>
      match parse s with
      | Except.ok v => Except.ok (some v)
      | Except.error _ => Except.ok none

/-- The auth provider's initial cache-restore effect: reads the cached user
string; on a parse failure the error is caught and logged and the previous
user state is kept; nothing is thrown. -/
def restoreCachedUserEffect {α : Type} (parse : String → Except String α)
    (cached : Option String) (prevUser : Option α) : Except String (Option α) :=
  match cached with
  | none => Except.ok prevUser
  | some s =>
      match parse s with
      | Except.ok u => Except.ok (some u)
      | Except.error _ => Except.ok prevUser

/-! ## Token discovery (`getAuthToken` / `getAuthTokenSync`) -/

/-- A value stored in localStorage, as seen through JSON.parse in the token
scan: a JSON object with the three token locations the code probes, a JSON
string literal, or a raw non-JSON string on which JSON.parse throws. -/
inductive StoredVal
  | obj (access sessionAccess dataSessionAccess : Option String)
  | strVal (s : String)
  | raw (s : String)
deriving DecidableEq, Repr

/-- localStorage as an insertion-ordered association list; `Object.keys`
enumerates the keys in this order. -/
def lsGetItem (store : List (String × StoredVal)) (k : String) : Option StoredVal :=
  (store.find? (fun p => p.1 == k)).map (fun p => p.2)

/-- Key filter used by `getAuthTokenSync`. -/
def syncKeyMatch (k : String) : Bool :=
  (strContains k "sb-" && strContains k "auth") ||
  (strContains k "supabase" && strContains k "auth") ||
  strContains k "aditi-supabase-auth"

/-- Key filter used by `getAuthToken` for the dynamic storage scan. -/
def asyncKeyMatch (k : String) : Bool :=
  (strContains k "sb-" && strContains k "auth") ||
  (strContains k "supabase" && strContains k "auth") ||
  (strContains k "sb-" && strContains k "token")

/-- The JWT-looking-string heuristic of `getAuthToken`. -/
def jwtLike (s : String) : Bool :=
  strContains s "." && decide (100 < s.length)

/-- Token extraction for one storage entry, async variant: the three object
locations in order; a JSON string literal, or an unparseable raw string,
is accepted when it looks like a JWT. -/
def tokenFromEntryAsync : StoredVal → Option String
  | StoredVal.obj a sa dsa => a.orElse fun _ => sa.orElse fun _ => dsa
  | StoredVal.strVal s => if jwtLike s then some s else none
  | StoredVal.raw s => if jwtLike s then some s else none

/-- Token extraction, sync variant: only the three object locations; parse
failures and string literals are skipped. -/
def tokenFromEntrySync : StoredVal → Option String
  | StoredVal.obj a sa dsa => a.orElse fun _ => sa.orElse fun _ => dsa
  | _ => none

/-- Walk a key list in order, returning the first token found. -/
def scanKeys (store : List (String × StoredVal)) (extract : StoredVal → Option String) :
    List String → Option String
  | [] => none
  | k :: rest =>
      match lsGetItem store k with
      | none => scanKeys store extract rest
      | some v =>
          match extract v with
          | some t => some t
          | none => scanKeys store extract rest

/-- `getAuthTokenSync`: a synchronous scan of the matching localStorage keys. -/
def getAuthTokenSync (hasWindow : Bool) (store : List (String × StoredVal)) :
    Option String :=
  if !hasWindow then none
  else scanKeys store tokenFromEntrySync ((store.map (fun p => p.1)).filter syncKeyMatch)

/-- The five hard-coded candidate keys of `getAuthToken`. -/
def possibleKeys (envProjectRef : String) : List String :=
  ["sb-" ++ envProjectRef ++ "-auth-token", "sb-auth-token", "supabase.auth.token",
   "aditi-supabase-auth", "sb-localhost-auth-token"]

/-- `getAuthToken`: first the live in-memory session of the global supabase
client (when reachable), then the hard-coded candidate keys followed by the
dynamic key scan of localStorage, else give up with a warning. -/
def getAuthToken (hasWindow : Bool) (liveSession : Option String)
    (envProjectRef : String) (store : List (String × StoredVal)) : Option String :=
  if !hasWindow then none
  else
    match liveSession with
    | some t => some t
    | none =>
        scanKeys store tokenFromEntryAsync
          (possibleKeys envProjectRef ++ (store.map (fun p => p.1)).filter asyncKeyMatch)

/-- Token the guard installed by `ensureTokenInRequests` actually uses: the
synchronous storage scan first, falling back to the async path. -/
def guardToken (hasWindow : Bool) (liveSession : Option String)
    (envProjectRef : String) (store : List (String × StoredVal)) : Option String :=
  match getAuthTokenSync hasWindow store with
  | some t => some t
  | none => getAuthToken hasWindow liveSession envProjectRef store

/-- Modelled from the spec: the token-discovery order as the specification
states it for the guard, namely ask the live in-memory session first, then
scan durable storage, then give up. Used only for comparison with
`guardToken`. -/
def specOrderGuardToken (hasWindow : Bool) (liveSession : Option String)
    (envProjectRef : String) (store : List (String × StoredVal)) : Option String :=
  if !hasWindow then none
  else
    match liveSession with
    | some t => some t
    | none =>
        match getAuthTokenSync true store with
        | some t => some t
        | none =>
            scanKeys store tokenFromEntryAsync
              (possibleKeys envProjectRef ++ (store.map (fun p => p.1)).filter asyncKeyMatch)

/-! ## The request guard of `ensureTokenInRequests` -/

/-- The only request field the guard mutates is the Authorization header.
`headerAuth` is its value when present (the code checks both spellings of
the header name); `rest` stands for everything else in the request init,
carried through untouched. -/
structure GuardInit where
  headerAuth : Option String
  rest : String
deriving DecidableEq, Repr

/-- URL classification in `ensureTokenInRequests`. -/
def isSameOrigin (origin url : String) : Bool :=
  strStartsWith url "/" || strStartsWith url origin

/-- Note: when the NEXT_PUBLIC_SUPABASE_URL env var is absent the code
tests `url.includes('')`, which is true for every url. -/
def isSupabaseCall (envSupabaseUrl url : String) : Bool :=
  strContains url envSupabaseUrl || strContains url "supabase.co" ||
  strContains url "supabase.com"

/-- Headers produced by the guard for one request. -/
def guardHeaders (origin envSupabaseUrl : String) (tok : Option String)
    (url : String) (init : GuardInit) : GuardInit :=
  if isSameOrigin origin url || isSupabaseCall envSupabaseUrl url then
    match tok with
    | some t =>
        if init.headerAuth.isNone then
          { init with headerAuth := some ("Bearer " ++ t) }
        else init
    | none => init
  else init

/-- The wrapped fetch installed by `ensureTokenInRequests`: every request is
forwarded to the original fetch, with the possibly augmented headers. -/
def ensureTokenWrappedFetch {ρ : Type} (origin envSupabaseUrl : String)
    (tok : Option String) (originalFetch : String → GuardInit → ρ)
    (url : String) (init : GuardInit) : ρ :=
  originalFetch url (guardHeaders origin envSupabaseUrl tok url init)

/-! ## The two variants of `applySwitchPreventionToFetch` and the
supabase client's custom `global.fetch` -/

/-- The corrected `applySwitchPreventionToFetch`: the installed fetch
forwards its arguments to the original fetch unchanged, never blocking or
faking a call. -/
def applySwitchPreventionFetchFinal {α ρ : Type} (originalFetch : α → ρ) : α → ρ :=
  fun args => originalFetch args

/-- An HTTP response. -/
structure Resp where
  status : Nat
  body : String
deriving DecidableEq, Repr

/-- Options of the supabase client's custom fetch. `headers` is none when
the caller passed no headers field at all, otherwise it carries the
Authorization value inside it (none when unset). The 406 handler only
installs the refreshed token when a headers field already exists. -/
structure SbOptions where
  headers : Option (Option String)
deriving DecidableEq, Repr

/-- Body of the synthetic success response built from the cached
user/session strings. -/
def syntheticAuthBody (cachedUser cachedSession : Option String) : String :=
  "\x7b\"data\":\x7b\"session\":" ++ cachedSession.getD "null" ++
  ",\"user\":" ++ cachedUser.getD "null" ++ "\x7d,\"error\":null\x7d"

/-- Body of the neutral synthetic response when nothing is cached. -/
def neutralAuthBody : String :=
  "\x7b\"data\":\x7b\"session\":null\x7d,\"error\":null\x7d"

/-- The custom `global.fetch` of `src/lib/supabaseClient.ts`.

Inputs: whether either tab-switch sessionStorage flag is set, the two
cached strings, the outcome of `supabase.auth.refreshSession()` (the new
access token when it succeeds with a session), and the underlying network
`net` giving the response of the n-th forwarded call.

Output: the response handed back to the client library, the list of calls
actually forwarded to the real fetch (url and options, in order), and the
number of refresh attempts. -/
def supabaseGlobalFetch (returningFlag : Bool) (cachedUser cachedSession : Option String)
    (refreshedToken : Option String) (net : Nat → Resp)
    (url : String) (options : SbOptions) : Resp × List (String × SbOptions) × Nat :=
  if returningFlag && strContains url "/auth/" then
    if cachedUser.isSome || cachedSession.isSome then
      (⟨200, syntheticAuthBody cachedUser cachedSession⟩, [], 0)
    else
      (⟨200, neutralAuthBody⟩, [], 0)
  else
    let r0 := net 0
    if r0.status == 406 then
      match refreshedToken with
      | none => (r0, [(url, options)], 1)
      | some tok =>
          let newOptions : SbOptions :=
            match options.headers with
            | none => options
            | some _ => ⟨some (some ("Bearer " ++ tok))⟩
          (net 1, [(url, options), (url, newOptions)], 1)
    else (r0, [(url, options)], 0)

/-! ## The dashboard's `fetchUserUpdates` 406 path -/

/-- Outcome of one run of the dashboard query. -/
inductive QueryOutcome
  | rows (n : Nat)
  | failed (code : String) (msg : String) (status : Nat)
deriving DecidableEq, Repr

/-- The 406 test of `fetchUserUpdates` on a failed query. -/
def detects406 (code msg : String) (status : Nat) : Bool :=
  code == "406" || strContains msg "406" || status == 406

/-- What `fetchUserUpdates` ends up doing. `raised` is an error thrown to
the surrounding catch, which logs it and shows an error toast. -/
inductive UpdatesResult
  | skippedTabSwitch
  | success (rows : Nat)
  | signedOut
  | raised (code : String)
deriving DecidableEq, Repr

/-- `fetchUserUpdates` from the dashboard page: its control flow around the
406 refresh-and-retry, instrumented with the number of runs of the original
query and the number of refresh attempts. `query n` is the outcome of the
n-th run; `refreshOk` tells whether `supabase.auth.refreshSession()`
returned a session. -/
def fetchUserUpdates (returning : Bool) (query : Nat → QueryOutcome)
    (refreshOk : Bool) : UpdatesResult × Nat × Nat :=
  if returning then (UpdatesResult.skippedTabSwitch, 0, 0)
  else
    match query 0 with
    | QueryOutcome.rows n => (UpdatesResult.success n, 1, 0)
    | QueryOutcome.failed c m s =>
        if detects406 c m s then
          if !refreshOk then (UpdatesResult.signedOut, 1, 1)
          else
            match query 1 with
            | QueryOutcome.rows n => (UpdatesResult.success n, 2, 1)
            | QueryOutcome.failed c2 _ _ => (UpdatesResult.raised c2, 2, 1)
        else (UpdatesResult.raised c, 1, 0)

/-! ## Cache-versus-network decisions in the auth context -/

inductive CacheDecision
  | usedCache
  | noAction
  | freshCheck
deriving DecidableEq, Repr

/-- Cached identity as the auth context reads it, reduced to the one field
the freshness test looks at. -/
structure CachedIdentity where
  lastChecked : Option Nat
deriving DecidableEq, Repr

def TWO_HOURS_MS : Nat := 2 * 60 * 60 * 1000

/-- `checkSessionQuietly`, reduced to its cache-versus-network decision.
`cache` is none when no cached string exists and `some none` when the
string fails to parse. When returning from a tab switch the cache is used
only if there is no current user and the record is younger than two hours
(with the JS truthiness test on `lastChecked`); in every other returning
case nothing happens. When not returning, the authoritative
`supabase.auth.getSession` check proceeds. -/
def checkSessionQuietlyDecision (returning : Bool) (haveUser : Bool)
    (cache : Option (Option CachedIdentity)) (now : Nat) : CacheDecision :=
  if returning then
    match cache, haveUser with
    | some (some cu), false =>
        match cu.lastChecked with
        | some lc =>
            if lc != 0 && decide ((now : Int) - (TWO_HOURS_MS : Int) < (lc : Int)) then
              CacheDecision.usedCache
            else CacheDecision.noAction
        | none => CacheDecision.noAction
    | _, _ => CacheDecision.noAction
  else CacheDecision.freshCheck

/-- `refreshUser`: when returning from a tab switch, any parseable cached
identity is adopted with no freshness test at all; when not returning, the
authoritative `supabase.auth.getUser` runs. -/
def refreshUserDecision (returning : Bool)
    (cache : Option (Option CachedIdentity)) : CacheDecision :=
  if returning then
    match cache with
    | some (some _) => CacheDecision.usedCache
    | _ => CacheDecision.noAction
  else CacheDecision.freshCheck

/-- The visible branch of the auth context's `visibilitychange` handler:
any parseable cached identity is adopted when no user is set, again with no
freshness test; otherwise a deferred `checkSessionQuietly` is scheduled
unless the ReturningFlag is active. -/
def visibilityHandlerDecision (returning : Bool) (haveUser : Bool)
    (cache : Option (Option CachedIdentity)) : CacheDecision :=
  match cache, haveUser with
  | some (some _), false => CacheDecision.usedCache
  | some none, false =>
      if !returning then CacheDecision.freshCheck else CacheDecision.noAction
  | _, _ =>
      if !returning then CacheDecision.freshCheck else CacheDecision.noAction

/-! ## `updateUserData` -/

/-- The auth user object handed over by the external service. -/
structure AuthUser where
  id : String
  email : Option String
  metadataName : Option String
deriving DecidableEq, Repr

/-- The identity record kept in state and in the cache. -/
structure UserRec where
  id : String
  email : String
  name : String
  role : String
  teamId : Option String
  teamName : Option String
  lastChecked : Nat
deriving DecidableEq, Repr

/-- JS: metadata name, else the part of the email before the at sign, else
the literal User, empty strings being falsy. -/
def displayName (metadataName : Option String) (email : String) : String :=
  let fallback :=
    match (email.splitOn "@").head? with
    | some p => if p == "" then "User" else p
    | none => "User"
  match metadataName with
  | some n => if n == "" then fallback else n
  | none => fallback

/-- `updateUserData` from the auth context: a missing (or empty, hence
falsy) email, or a missing user object, short-circuits to the no-identity
state and returns without touching the cached identity in localStorage; on
success the fresh record replaces both state and cache. The role and team
queries are oracles. Returns the new user state and the new cache content. -/
def updateUserData (authUser : Option AuthUser) (roleLookup : String → String)
    (teamLookup : String → Option (String × Option String)) (now : Nat)
    (cacheBefore : Option UserRec) : Option UserRec × Option UserRec :=
  match authUser with
  | none => (none, cacheBefore)
  | some au =>
      match au.email with
      | none => (none, cacheBefore)
      | some em =>
          if em == "" then (none, cacheBefore)
          else
            let team := teamLookup em
            let u : UserRec :=
              { id := au.id, email := em, name := displayName au.metadataName em,
                role := roleLookup em,
                teamId := team.map (fun p => p.1),
                teamName := team.bind (fun p => p.2),
                lastChecked := now }
            (some u, some u)

/-- A parse oracle that always fails, standing for JSON.parse on a
malformed string (used in concrete witnesses). -/
def alwaysFailParse : String → Except String Nat :=
  fun _ => Except.error "SyntaxError"

/-! ### Basic facts about `latestArm` and `markerAt` -/

theorem latestArm_eq_none {arms : List Nat} {t : Nat}
    (h : ∀ a ∈ arms, t < a) : latestArm arms t = none := by
  induction arms with
  | nil => rfl
  | cons a rest ih =>
      have ha := h a (List.mem_cons_self a rest)
      have : latestArm rest t = none := ih (fun b hb => h b (List.mem_cons_of_mem a hb))
      simp [latestArm, this, Nat.not_le_of_lt ha]

theorem latestArm_mem {arms : List Nat} {t b : Nat}
    (h : latestArm arms t = some b) : b ∈ arms := by
  induction arms generalizing b with
  | nil => simp [latestArm] at h
  | cons c cs ih =>
      by_cases hc : c ≤ t
      · cases hcs : latestArm cs t with
        | none =>
            simp [latestArm, hcs, hc] at h
            exact h ▸ List.mem_cons_self c cs
        | some d =>
            simp [latestArm, hcs, hc] at h
            rcases max_choice c d with hmax | hmax
            · rw [hmax] at h
              exact h ▸ List.mem_cons_self c cs
            · rw [hmax] at h
              exact h ▸ List.mem_cons_of_mem c (ih hcs)
      · cases hcs : latestArm cs t with
        | none => simp [latestArm, hcs, hc] at h
        | some d =>
            simp [latestArm, hcs, hc] at h
            exact h ▸ List.mem_cons_of_mem c (ih hcs)

theorem latestArm_eq_max {arms : List Nat} {T t : Nat}
    (hT : T ∈ arms) (hle : ∀ a ∈ arms, a ≤ T) (hTt : T ≤ t) :
    latestArm arms t = some T := by
  induction arms with
  | nil => cases hT
  | cons a rest ih =>
      rcases List.mem_cons.mp hT with rfl | hTrest
      · -- head is the maximum T
        have hrest : ∀ b ∈ rest, b ≤ T := fun b hb => hle b (List.mem_cons_of_mem T hb)
        cases hrec : latestArm rest t with
        | none => simp [latestArm, hrec, hTt]
        | some b =>
            have hb_le : b ≤ T := hrest b (latestArm_mem hrec)
            simp [latestArm, hrec, hTt, Nat.max_eq_left hb_le]
      · -- T in the tail
        have ha_le : a ≤ T := hle a (List.mem_cons_self a rest)
        have hrec : latestArm rest t = some T :=
          ih hTrest (fun b hb => hle b (List.mem_cons_of_mem a hb))
        by_cases hat : a ≤ t
        · simp [latestArm, hrec, hat, Nat.max_eq_right ha_le]
        · simp [latestArm, hrec, hat]

/-- If the arming at `T` is the latest one and every other arming's removal
deadline lies at or before `T`, the marker holds `T` on `[T, T+W)` and is
absent from `T+W` on. -/
theorem markerAt_isolated {arms : List Nat} {T W t : Nat}
    (hT : T ∈ arms) (hle : ∀ a ∈ arms, a ≤ T)
    (hprev : ∀ a ∈ arms, a = T ∨ a + W ≤ T)
    (hW : 0 < W) (hTt : T ≤ t) :
    markerAt arms W t = if t < T + W then some T else none := by
  have hlat := latestArm_eq_max hT hle hTt
  unfold markerAt
  rw [hlat]
  by_cases hexp : T + W ≤ t
  · have hany : arms.any (fun a => decide (T < a + W) && decide (a + W ≤ t)) = true := by
      refine List.any_eq_true.mpr ⟨T, hT, ?_⟩
      simp only [Bool.and_eq_true, decide_eq_true_eq]
      omega
    have hcond : ¬ t < T + W := by omega
    simp [hany, hcond]
  · have hany : arms.any (fun a => decide (T < a + W) && decide (a + W ≤ t)) = false := by
      rw [List.any_eq_false]
      intro a ha
      rcases hprev a ha with rfl | hback
      · simp only [Bool.and_eq_true, decide_eq_true_eq, not_and]
        omega
      · simp only [Bool.and_eq_true, decide_eq_true_eq, not_and]
        omega
    have hcond : t < T + W := by omega
    simp [hany, hcond]

/-- Marker content when the key is armed twice, the second arming landing
before the first arming's (uncancelled) removal timer fires: the first
stale timer clears the key at `T1 + W` even though the second arming's own
timer would only fire at `T2 + W`. -/
theorem markerAt_two_arms {T1 T2 W : Nat} (hW : 0 < W) (h12 : T1 < T2)
    (h2w : T2 < T1 + W) (t : Nat) :
    markerAt [T1, T2] W t =
      if T2 ≤ t then (if t < T1 + W then some T2 else none)
      else if T1 ≤ t then some T1 else none := by
  by_cases h2t : T2 ≤ t
  · have h1t : T1 ≤ t := le_trans (Nat.le_of_lt h12) h2t
    have hlat : latestArm [T1, T2] t = some T2 := by
      refine latestArm_eq_max (by simp) ?_ h2t
      intro a ha
      simp only [List.mem_cons, List.mem_singleton, List.not_mem_nil, or_false] at ha
      rcases ha with rfl | rfl
      · omega
      · omega
    unfold markerAt
    rw [hlat]
    by_cases hexp : T1 + W ≤ t
    · have hany : [T1, T2].any (fun a => decide (T2 < a + W) && decide (a + W ≤ t)) = true := by
        refine List.any_eq_true.mpr ⟨T1, by simp, ?_⟩
        simp only [Bool.and_eq_true, decide_eq_true_eq]
        omega
      have hcond : ¬ t < T1 + W := by omega
      simp [hany, h2t, hcond]
    · have hany : [T1, T2].any (fun a => decide (T2 < a + W) && decide (a + W ≤ t)) = false := by
        rw [List.any_eq_false]
        intro a ha
        simp only [List.mem_cons, List.mem_singleton, List.not_mem_nil, or_false] at ha
        rcases ha with rfl | rfl
        · simp only [Bool.and_eq_true, decide_eq_true_eq, not_and]
          omega
        · simp only [Bool.and_eq_true, decide_eq_true_eq, not_and]
          omega
      have hcond : t < T1 + W := by omega
      simp [hany, h2t, hcond]
  · by_cases h1t : T1 ≤ t
    · have hlat : latestArm [T1, T2] t = some T1 := by
        simp [latestArm, h1t, h2t]
      unfold markerAt
      rw [hlat]
      have hany : [T1, T2].any (fun a => decide (T1 < a + W) && decide (a + W ≤ t)) = false := by
        rw [List.any_eq_false]
        intro a ha
        simp only [List.mem_cons, List.mem_singleton, List.not_mem_nil, or_false] at ha
        rcases ha with rfl | rfl
        · simp only [Bool.and_eq_true, decide_eq_true_eq, not_and]
          omega
        · simp only [Bool.and_eq_true, decide_eq_true_eq, not_and]
          omega
      simp [hany, h1t, h2t]
    · have hlat : latestArm [T1, T2] t = none := by
        refine latestArm_eq_none ?_
        intro a ha
        simp only [List.mem_cons, List.mem_singleton, List.not_mem_nil, or_false] at ha
        rcases ha with rfl | rfl
        · omega
        · omega
      unfold markerAt
      rw [hlat]
      simp [h1t, h2t]

/-! ## Claim theorems -/

/-- C10: in the simplified tab-switch utility the returning check is
self-expiring at read time: a read performed 2000 ms or more after
`preventNextTabSwitchRefresh` stored its timestamp returns false even when
the marker is still present because the scheduled clearing timer never
fired; and the check returns false whenever no flag was ever set or no
browser window context exists. -/
theorem c10_self_expiring_read (ts now : Nat) (marker : Option Nat) (hw : Bool)
    (hexp : ts + 2000 ≤ now) :
    isReturningSimple true (some ts) now = false ∧
    isReturningSimple hw none now = false ∧
    isReturningSimple false marker now = false := by
  refine ⟨?_, ?_, ?_⟩
  · simp only [isReturningSimple, Bool.not_true, Bool.false_eq_true, if_false,
      decide_eq_false_iff_not, not_lt]
    omega
  · cases hw <;> simp [isReturningSimple]
  · simp [isReturningSimple]

/-- Witness for C10 at a concrete input. -/
theorem c10_self_expiring_read_witness :
    isReturningSimple true (some 0) 2000 = false ∧
    isReturningSimple true none 2000 = false ∧
    isReturningSimple false (some 5) 2000 = false :=
  c10_self_expiring_read 0 2000 (some 5) true (by decide)

/-- C9: for every persisted record that is absent or malformed
(unparseable), `restoreTabState` and the cached-identity read path of the
auth provider return an absent (null-equivalent) result and never raise an
exception to the caller; a parse failure is treated identically to
absence. -/
theorem c9_restore_never_raises {α : Type} (parse : String → Except String α)
    (stored cached : Option String) (prevUser : Option α) :
    (∃ r, restoreTabState parse stored = Except.ok r) ∧
    (stored = none → restoreTabState parse stored = Except.ok none) ∧
    (∀ s e, stored = some s → parse s = Except.error e →
      restoreTabState parse stored = Except.ok none) ∧
    (∃ r, restoreCachedUserEffect parse cached prevUser = Except.ok r) ∧
    (∀ s e, cached = some s → parse s = Except.error e →
      restoreCachedUserEffect parse cached prevUser =
        restoreCachedUserEffect parse none prevUser) ∧
    (restoreCachedUserEffect parse none none = Except.ok none) := by
  refine ⟨?_, ?_, ?_, ?_, ?_, rfl⟩
  · cases stored with
    | none => exact ⟨none, rfl⟩
    | some s =>
        cases hp : parse s with
        | ok v => exact ⟨some v, by simp [restoreTabState, hp]⟩
        | error e => exact ⟨none, by simp [restoreTabState, hp]⟩
  · intro h
    subst h
    rfl
  · intro s e hs hp
    subst hs
    simp [restoreTabState, hp]
  · cases cached with
    | none => exact ⟨prevUser, rfl⟩
    | some s =>
        cases hp : parse s with
        | ok v => exact ⟨some v, by simp [restoreCachedUserEffect, hp]⟩
        | error e => exact ⟨prevUser, by simp [restoreCachedUserEffect, hp]⟩
  · intro s e hs hp
    subst hs
    simp [restoreCachedUserEffect, hp]

/-- Witness for C9: a malformed stored string under a parse oracle that
always fails. -/
theorem c9_restore_never_raises_witness :
    restoreTabState alwaysFailParse (some "x") = Except.ok none ∧
    restoreCachedUserEffect alwaysFailParse (some "x") none =
      restoreCachedUserEffect alwaysFailParse none none := by
  have h := c9_restore_never_raises alwaysFailParse (some "x") (some "x") none
  exact ⟨h.2.2.1 "x" "SyntaxError" rfl rfl, h.2.2.2.2.1 "x" "SyntaxError" rfl rfl⟩

/-- C4 counterexample: in the simplified variant the flag is last set at
time 900 (armings at times 0 and 900, window 2000 ms); the read at time
2300 lies inside the window of that last set, yet the check returns false,
because the uncancelled removal timer of the arming at time 0 already
cleared the marker at time 2000. -/
theorem c4_counterexample :
    latestArm [0, 900] 2300 = some 900 ∧
    (900 : Nat) ≤ 2300 ∧ (2300 : Nat) < 900 + SIMPLE_WINDOW ∧
    isReturningSimple true (markerAt [0, 900] SIMPLE_WINDOW 2300) 2300 = false := by
  decide

/-- C4 (amended): time-bounded validity of the ReturningFlag holds, in each
representation (timestamped storage marker; presence marker together with
the body CSS class; the prevent-refresh marker), for any arming at time T
that is the latest one and is not preceded by an arming whose removal timer
is still pending at T: every check at a time in the window returns true and
every check at or after its end returns false. The unamended claim fails
when a stale removal timer from an earlier arming is still pending, see the
counterexample. -/
theorem c4_time_bounded_validity {arms : List Nat} {T t : Nat}
    (hT : T ∈ arms) (hle : ∀ a ∈ arms, a ≤ T) (hTt : T ≤ t) :
    ((∀ a ∈ arms, a = T ∨ a + SIMPLE_WINDOW ≤ T) →
      isReturningSimple true (markerAt arms SIMPLE_WINDOW t) t =
        decide (t < T + SIMPLE_WINDOW)) ∧
    ((∀ a ∈ arms, a = T ∨ a + VISIBILITY_WINDOW ≤ T) →
      isReturningFlags true (markerAt arms VISIBILITY_WINDOW t) none
        (markerAt arms VISIBILITY_WINDOW t).isSome false =
        decide (t < T + VISIBILITY_WINDOW)) ∧
    ((∀ a ∈ arms, a = T ∨ a + PREVENT_REFRESH_WINDOW ≤ T) →
      isReturningFlags true none (markerAt arms PREVENT_REFRESH_WINDOW t)
        false false = decide (t < T + PREVENT_REFRESH_WINDOW)) := by
  refine ⟨?_, ?_, ?_⟩
  · intro hprev
    rw [markerAt_isolated hT hle hprev (by norm_num [SIMPLE_WINDOW]) hTt]
    by_cases h : t < T + SIMPLE_WINDOW
    · simp only [h, if_true, decide_eq_true_eq, isReturningSimple, Bool.not_true,
        Bool.false_eq_true, if_false]
      simp only [SIMPLE_WINDOW] at h ⊢
      have hint : (t : Int) - (T : Int) < 2000 := by omega
      simp [hint]
    · simp [h, isReturningSimple]
  · intro hprev
    rw [markerAt_isolated hT hle hprev (by norm_num [VISIBILITY_WINDOW]) hTt]
    by_cases h : t < T + VISIBILITY_WINDOW
    · simp [h, isReturningFlags]
    · simp [h, isReturningFlags]
  · intro hprev
    rw [markerAt_isolated hT hle hprev (by norm_num [PREVENT_REFRESH_WINDOW]) hTt]
    by_cases h : t < T + PREVENT_REFRESH_WINDOW
    · simp [h, isReturningFlags]
    · simp [h, isReturningFlags]

/-- Witness for the amended C4: a single arming at time 100, read at
time 1500. -/
theorem c4_time_bounded_validity_witness :
    isReturningSimple true (markerAt [100] SIMPLE_WINDOW 1500) 1500 =
      decide ((1500 : Nat) < 100 + SIMPLE_WINDOW) ∧
    isReturningFlags true (markerAt [100] VISIBILITY_WINDOW 1500) none
      (markerAt [100] VISIBILITY_WINDOW 1500).isSome false =
      decide ((1500 : Nat) < 100 + VISIBILITY_WINDOW) ∧
    isReturningFlags true none (markerAt [100] PREVENT_REFRESH_WINDOW 1500)
      false false = decide ((1500 : Nat) < 100 + PREVENT_REFRESH_WINDOW) := by
  have h := @c4_time_bounded_validity [100] 100 1500
    (by simp) (by intro a ha; simp at ha; omega) (by norm_num)
  exact ⟨h.1 (by intro a ha; simp at ha; omega),
         h.2.1 (by intro a ha; simp at ha; omega),
         h.2.2 (by intro a ha; simp at ha; omega)⟩

/-- C5 counterexample: the utility variant's returning flag is armed at
times 0 and 1000 (window 2500 ms), the second arming landing before the
first window expires; the read at time 2700 lies inside a full fresh window
measured from the second arming, yet the flag is already cleared by the
first arming's uncancelled timer, which fired at time 2500. -/
theorem c5_counterexample :
    (1000 : Nat) < 0 + VISIBILITY_WINDOW ∧
    (1000 : Nat) ≤ 2700 ∧ (2700 : Nat) < 1000 + VISIBILITY_WINDOW ∧
    isReturningFlags true (markerAt [0, 1000] VISIBILITY_WINDOW 2700) none
      false false = false := by
  decide

/-- C5 (amended): a second arming before the first window expires refreshes
the stored marker and schedules an additional removal timer, but the first
timer is not cancelled: in both representations the flag reads true exactly
from the first arming until the first arming's deadline, not for a full
fresh window measured from the second arming. (The only removals are the
markers' own timers; the flaw is the stale first timer.) -/
theorem c5_rearm_no_restart {T1 T2 t : Nat} (h12 : T1 < T2) :
    (T2 < T1 + SIMPLE_WINDOW →
      isReturningSimple true (markerAt [T1, T2] SIMPLE_WINDOW t) t =
        (decide (T1 ≤ t) && decide (t < T1 + SIMPLE_WINDOW))) ∧
    (T2 < T1 + VISIBILITY_WINDOW →
      isReturningFlags true (markerAt [T1, T2] VISIBILITY_WINDOW t) none
        false false =
        (decide (T1 ≤ t) && decide (t < T1 + VISIBILITY_WINDOW))) := by
  constructor
  · intro h2w
    rw [markerAt_two_arms (by norm_num [SIMPLE_WINDOW]) h12 h2w t]
    by_cases h2t : T2 ≤ t
    · by_cases hexp : t < T1 + SIMPLE_WINDOW
      · have h1t : T1 ≤ t := le_trans (Nat.le_of_lt h12) h2t
        simp only [h2t, hexp, if_true, isReturningSimple, Bool.not_true,
          Bool.false_eq_true, if_false, h1t, decide_eq_true_eq]
        simp only [SIMPLE_WINDOW] at hexp h2w ⊢
        have hint : (t : Int) - (T2 : Int) < 2000 := by omega
        simp [hint]
      · simp only [h2t, hexp, if_true, if_false, isReturningSimple]
        simp [hexp]
    · by_cases h1t : T1 ≤ t
      · have hexp : t < T1 + SIMPLE_WINDOW := by
          simp only [SIMPLE_WINDOW] at h2w ⊢
          omega
        simp only [h2t, if_false, h1t, if_true, isReturningSimple, Bool.not_true,
          Bool.false_eq_true]
        simp only [SIMPLE_WINDOW] at hexp ⊢
        have hint : (t : Int) - (T1 : Int) < 2000 := by omega
        simp [hint, hexp]
      · simp only [h2t, if_false, h1t, isReturningSimple]
        simp [h1t]
  · intro h2w
    rw [markerAt_two_arms (by norm_num [VISIBILITY_WINDOW]) h12 h2w t]
    by_cases h2t : T2 ≤ t
    · by_cases hexp : t < T1 + VISIBILITY_WINDOW
      · have h1t : T1 ≤ t := le_trans (Nat.le_of_lt h12) h2t
        simp [h2t, hexp, h1t, isReturningFlags]
      · simp [h2t, hexp, isReturningFlags]
    · by_cases h1t : T1 ≤ t
      · have hexp : t < T1 + VISIBILITY_WINDOW := by
          simp only [VISIBILITY_WINDOW] at h2w ⊢
          omega
        simp [h2t, h1t, hexp, isReturningFlags]
      · simp [h2t, h1t, isReturningFlags]

/-- Witness for the amended C5: armings at 0 and 1000, read at 2700. -/
theorem c5_rearm_no_restart_witness :
    isReturningSimple true (markerAt [0, 1000] SIMPLE_WINDOW 2700) 2700 =
      (decide ((0 : Nat) ≤ 2700) && decide ((2700 : Nat) < 0 + SIMPLE_WINDOW)) ∧
    isReturningFlags true (markerAt [0, 1000] VISIBILITY_WINDOW 2700) none
      false false =
      (decide ((0 : Nat) ≤ 2700) && decide ((2700 : Nat) < 0 + VISIBILITY_WINDOW)) := by
  have h := @c5_rearm_no_restart 0 1000 2700 (by norm_num)
  exact ⟨h.1 (by norm_num [SIMPLE_WINDOW]), h.2 (by norm_num [VISIBILITY_WINDOW])⟩

/-- Lookup across a JS spread: the later (right) fields win. -/
theorem jsLookup_append (l1 l2 : List (String × JsVal)) (k : String) :
    jsLookup (l1 ++ l2) k = (jsLookup l2 k).orElse (fun _ => jsLookup l1 k) := by
  simp only [jsLookup, List.reverse_append, List.find?_append]
  cases l2.reverse.find? (fun p => p.1 == k) <;> simp [Option.orElse]

/-- C6 counterexample: the simplified `saveTabState` persists a record with
no tabId field at all when the caller passes no extra fields; the base
record it merges over is only lastActive and route. -/
theorem c6_counterexample :
    jsLookup (tabStateRecordSimple 5 "/dashboard" []) "tabId" = none := by
  rfl

/-- C6 (amended): in the utility variant, `saveTabState` persists the
caller's fields merged over the base record of tabId, lastActive-now and
current route, so a tabId field is present unless the caller overrides it;
in the simplified variant the base record has no tabId, so the persisted
record has one exactly when the caller supplies it. In both variants the
write wholly replaces any previously persisted value, independent of the
prior store content. -/
theorem c6_save_merges_over_base (tabId : String) (now : Nat) (route : String)
    (additional : List (String × JsVal)) (k : String)
    (store1 store2 : String → Option (List (String × JsVal)))
    (key : String) (rec : List (String × JsVal)) :
    (jsLookup (tabStateRecordUtil tabId now route additional) "tabId" =
      (jsLookup additional "tabId").orElse (fun _ => some (JsVal.str tabId))) ∧
    (jsLookup (tabStateRecordSimple now route additional) "tabId" =
      jsLookup additional "tabId") ∧
    (jsLookup (tabStateRecordUtil tabId now route additional) k =
      (jsLookup additional k).orElse
        (fun _ => jsLookup [("tabId", JsVal.str tabId), ("lastActive", JsVal.num now),
          ("route", JsVal.str route)] k)) ∧
    (jsLookup (tabStateRecordSimple now route additional) k =
      (jsLookup additional k).orElse
        (fun _ => jsLookup [("lastActive", JsVal.num now), ("route", JsVal.str route)] k)) ∧
    (setItem store1 key rec key = some rec ∧
     setItem store1 key rec key = setItem store2 key rec key) := by
  refine ⟨?_, ?_, ?_, ?_, ?_, ?_⟩
  · rw [tabStateRecordUtil, jsLookup_append]
    cases jsLookup additional "tabId" <;> rfl
  · rw [tabStateRecordSimple, jsLookup_append]
    cases jsLookup additional "tabId" <;> rfl
  · rw [tabStateRecordUtil, jsLookup_append]
  · rw [tabStateRecordSimple, jsLookup_append]
  · simp [setItem]
  · simp [setItem]

/-- C8 counterexample: an auth user object without an email: the user state
becomes null but the cached identity record is left in durable storage
untouched, not cleared. -/
theorem c8_counterexample :
    updateUserData (some ⟨"u1", none, none⟩) (fun _ => "user") (fun _ => none) 42
        (some ⟨"u0", "a@b.c", "A", "user", none, none, 7⟩) =
      (none, some ⟨"u0", "a@b.c", "A", "user", none, none, 7⟩) := by
  rfl

/-- C8 (amended): for every external auth user object that lacks an email
field (or carries an empty, falsy one, or is absent entirely),
`updateUserData` short-circuits to the no-identity state - the user is set
to null and no guessed identity is constructed - but any cached identity
record in durable storage is left untouched rather than cleared. -/
theorem c8_missing_email_short_circuit (authUser : Option AuthUser)
    (roleLookup : String → String)
    (teamLookup : String → Option (String × Option String))
    (now : Nat) (cacheBefore : Option UserRec)
    (hmissing : authUser = none ∨
      ∃ au, authUser = some au ∧ (au.email = none ∨ au.email = some "")) :
    updateUserData authUser roleLookup teamLookup now cacheBefore = (none, cacheBefore) := by
  rcases hmissing with rfl | ⟨au, rfl, h | h⟩
  · rfl
  · simp [updateUserData, h]
  · simp [updateUserData, h]

/-- Witness for the amended C8 at a concrete input. -/
theorem c8_missing_email_short_circuit_witness :
    updateUserData (some ⟨"u2", none, some "N"⟩) (fun _ => "admin") (fun _ => none) 9
        (some ⟨"u0", "a@b.c", "A", "user", none, none, 7⟩) =
      (none, some ⟨"u0", "a@b.c", "A", "user", none, none, 7⟩) :=
  c8_missing_email_short_circuit (some ⟨"u2", none, some "N"⟩) (fun _ => "admin")
    (fun _ => none) 9 (some ⟨"u0", "a@b.c", "A", "user", none, none, 7⟩)
    (Or.inr ⟨⟨"u2", none, some "N"⟩, rfl, Or.inl rfl⟩)

/-- C7 counterexample: a cached identity whose lastChecked stamp (1 ms) is
far older than the two-hour freshness window at read time 36000000 ms, yet
`refreshUser` under the ReturningFlag adopts it instead of preferring a
fresh authoritative check. -/
theorem c7_counterexample :
    ¬ ((36000000 : Int) - (TWO_HOURS_MS : Int) < (1 : Int)) ∧
    refreshUserDecision true (some (some ⟨some 1⟩)) = CacheDecision.usedCache := by
  constructor
  · simp only [TWO_HOURS_MS]
    decide
  · rfl

/-- C7 (amended): only `checkSessionQuietly` applies the two-hour freshness
window: under the ReturningFlag it uses the cache exactly when there is no
current user and the record has a truthy lastChecked inside the window, and
otherwise does nothing; without the flag it always performs the
authoritative check. `refreshUser` adopts any parseable cached identity
under the flag with no freshness test, and the visibility handler adopts
any parseable cached identity whenever no user is set, likewise with no
freshness test. -/
theorem c7_cache_freshness (haveUser returning : Bool)
    (cache : Option (Option CachedIdentity)) (now lc : Nat) :
    (checkSessionQuietlyDecision true false (some (some ⟨some lc⟩)) now =
      (if lc ≠ 0 ∧ ((now : Int) - (TWO_HOURS_MS : Int) < (lc : Int)) then
        CacheDecision.usedCache else CacheDecision.noAction)) ∧
    (checkSessionQuietlyDecision false haveUser cache now = CacheDecision.freshCheck) ∧
    (checkSessionQuietlyDecision true haveUser none now = CacheDecision.noAction) ∧
    (checkSessionQuietlyDecision true true cache now = CacheDecision.noAction) ∧
    (refreshUserDecision false cache = CacheDecision.freshCheck) ∧
    (∀ ci, refreshUserDecision true (some (some ci)) = CacheDecision.usedCache) ∧
    (∀ ci, visibilityHandlerDecision returning false (some (some ci)) =
      CacheDecision.usedCache) := by
  refine ⟨?_, rfl, ?_, ?_, rfl, fun ci => rfl, fun ci => rfl⟩
  · simp only [checkSessionQuietlyDecision, if_true]
    by_cases h0 : lc = 0
    · subst h0
      simp
    · by_cases hfresh : ((now : Int) - (TWO_HOURS_MS : Int) < (lc : Int))
      · simp [h0, hfresh, bne]
      · simp [h0, hfresh, bne]
  · cases haveUser <;> rfl
  · cases cache with
    | none => rfl
    | some c => cases c <;> rfl

/-- C3 counterexample: with a token A persisted in durable storage under a
matching key and a different token B in the live in-memory session, the
guard installed by `ensureTokenInRequests` attaches Bearer A - its
synchronous storage scan runs before the live-session ask - while the
spec's stated discovery order (live session first) would pick B. -/
theorem c3_counterexample :
    guardToken true (some "B") "p"
      [("sb-auth", StoredVal.obj (some "A") none none)] = some "A" ∧
    specOrderGuardToken true (some "B") "p"
      [("sb-auth", StoredVal.obj (some "A") none none)] = some "B" ∧
    ("A" : String) ≠ "B" ∧
    guardHeaders "o" "s"
      (guardToken true (some "B") "p" [("sb-auth", StoredVal.obj (some "A") none none)])
      "/api/x" ⟨none, "r"⟩ = ⟨some "Bearer A", "r"⟩ ∧
    guardHeaders "o" "s"
      (specOrderGuardToken true (some "B") "p"
        [("sb-auth", StoredVal.obj (some "A") none none)])
      "/api/x" ⟨none, "r"⟩ = ⟨some "Bearer B", "r"⟩ := by
  refine ⟨rfl, rfl, by decide, rfl, rfl⟩

/-- C3 (amended): for every request through the guard installed by
`ensureTokenInRequests`: if the request targets a same-origin or
known-backend URL, a bearer token is available, and no Authorization header
is already present, then an Authorization Bearer header is attached;
otherwise the request's headers are left unchanged; and every request is
forwarded to the original fetch. The discovery order, however, is:
(1) synchronous scan of durable storage, (2) the live in-memory session,
(3) the async storage scan (the hard-coded candidate keys, then the dynamic
scan), (4) give up with a warning - not live-session-first as the claim
states. -/
theorem c3_guard_attaches_bearer {ρ : Type} (origin envUrl envRef url : String)
    (hasWindow : Bool) (live : Option String) (store : List (String × StoredVal))
    (init : GuardInit) (originalFetch : String → GuardInit → ρ) :
    (ensureTokenWrappedFetch origin envUrl (guardToken hasWindow live envRef store)
        originalFetch url init =
      originalFetch url
        (guardHeaders origin envUrl (guardToken hasWindow live envRef store) url init)) ∧
    (∀ t, guardToken hasWindow live envRef store = some t →
      (isSameOrigin origin url || isSupabaseCall envUrl url) = true →
      init.headerAuth = none →
      guardHeaders origin envUrl (guardToken hasWindow live envRef store) url init =
        { init with headerAuth := some ("Bearer " ++ t) }) ∧
    (init.headerAuth ≠ none →
      guardHeaders origin envUrl (guardToken hasWindow live envRef store) url init = init) ∧
    ((isSameOrigin origin url || isSupabaseCall envUrl url) = false →
      guardHeaders origin envUrl (guardToken hasWindow live envRef store) url init = init) ∧
    (guardToken hasWindow live envRef store = none →
      guardHeaders origin envUrl (guardToken hasWindow live envRef store) url init = init) ∧
    (∀ t, getAuthTokenSync hasWindow store = some t →
      guardToken hasWindow live envRef store = some t) ∧
    (getAuthTokenSync hasWindow store = none →
      guardToken hasWindow live envRef store = getAuthToken hasWindow live envRef store) ∧
    (∀ t, getAuthTokenSync hasWindow store = none → live = some t → hasWindow = true →
      guardToken hasWindow live envRef store = some t) := by
  refine ⟨rfl, ?_, ?_, ?_, ?_, ?_, ?_, ?_⟩
  · intro t ht hurl hnone
    rw [ht]
    simp [guardHeaders, hurl, hnone]
  · intro hsome
    cases hin : init.headerAuth with
    | none => exact absurd hin hsome
    | some a =>
        cases htok : guardToken hasWindow live envRef store with
        | none => simp [guardHeaders]
        | some t => simp [guardHeaders, hin]
  · intro hurl
    simp [guardHeaders, hurl]
  · intro htok
    rw [htok]
    simp [guardHeaders]
  · intro t ht
    simp [guardToken, ht]
  · intro hnone
    simp [guardToken, hnone]
  · intro t hnone hlive hw
    subst hw
    subst hlive
    simp [guardToken, hnone, getAuthToken]

/-- Witness for the amended C3: same-origin request, no prior header, token
found by the synchronous storage scan. -/
theorem c3_guard_attaches_bearer_witness :
    guardHeaders "o" "s"
      (guardToken true none "p" [("sb-auth", StoredVal.obj (some "A") none none)])
      "/api/x" ⟨none, "r"⟩ = ⟨some "Bearer A", "r"⟩ ∧
    guardToken true none "p" [("sb-auth", StoredVal.obj (some "A") none none)] =
      some "A" := by
  have h := @c3_guard_attaches_bearer (String × GuardInit) "o" "s" "p" "/api/x"
    true none [("sb-auth", StoredVal.obj (some "A") none none)] ⟨none, "r"⟩
    (fun u i => (u, i))
  exact ⟨h.2.1 "A" rfl rfl rfl, h.2.2.2.2.2.1 "A" rfl⟩

/-- C2 counterexample: a query failing with 406 whose follow-up session
refresh fails: the user is signed out after a single run of the original
query - zero retries are issued, contradicting that exactly one retry is
attempted for every 406 failure. -/
theorem c2_counterexample :
    fetchUserUpdates false (fun _ => QueryOutcome.failed "406" "Not Acceptable" 406)
      false = (UpdatesResult.signedOut, 1, 1) := by
  rfl

/-- C2 (amended): on a 406 failure at most one session refresh and at most
one retry are attempted, in both the dashboard fetch and the supabase
client fetch, and never a second of either; exactly one retry is issued
when the refresh succeeds; when the refresh fails no retry is issued - the
dashboard signs the user out and the client surfaces the original 406
response; when the retry fails its error is surfaced; and a non-406
failure triggers neither refresh nor retry. -/
theorem c2_single_refresh_single_retry (query : Nat → QueryOutcome) (refreshOk : Bool)
    (returning returningFlag : Bool) (cu cs rt : Option String) (net : Nat → Resp)
    (url : String) (options : SbOptions) :
    ((fetchUserUpdates returning query refreshOk).2.1 ≤ 2 ∧
     (fetchUserUpdates returning query refreshOk).2.2 ≤ 1) ∧
    (∀ c m s, returning = false → query 0 = QueryOutcome.failed c m s →
      detects406 c m s = true → refreshOk = true →
      (fetchUserUpdates returning query refreshOk).2.1 = 2 ∧
      (fetchUserUpdates returning query refreshOk).2.2 = 1) ∧
    (∀ c m s, returning = false → query 0 = QueryOutcome.failed c m s →
      detects406 c m s = true → refreshOk = false →
      fetchUserUpdates returning query refreshOk = (UpdatesResult.signedOut, 1, 1)) ∧
    (∀ c m s c2 m2 s2, returning = false → query 0 = QueryOutcome.failed c m s →
      detects406 c m s = true → refreshOk = true →
      query 1 = QueryOutcome.failed c2 m2 s2 →
      (fetchUserUpdates returning query refreshOk).1 = UpdatesResult.raised c2) ∧
    (∀ c m s, returning = false → query 0 = QueryOutcome.failed c m s →
      detects406 c m s = false →
      fetchUserUpdates returning query refreshOk = (UpdatesResult.raised c, 1, 0)) ∧
    ((supabaseGlobalFetch returningFlag cu cs rt net url options).2.1.length ≤ 2 ∧
     (supabaseGlobalFetch returningFlag cu cs rt net url options).2.2 ≤ 1) ∧
    ((returningFlag && strContains url "/auth/") = false → (net 0).status = 406 →
      rt = none →
      supabaseGlobalFetch returningFlag cu cs rt net url options =
        (net 0, [(url, options)], 1)) ∧
    (∀ tok, (returningFlag && strContains url "/auth/") = false →
      (net 0).status = 406 → rt = some tok →
      (supabaseGlobalFetch returningFlag cu cs rt net url options).1 = net 1 ∧
      (supabaseGlobalFetch returningFlag cu cs rt net url options).2.1.length = 2 ∧
      (supabaseGlobalFetch returningFlag cu cs rt net url options).2.2 = 1) := by
  refine ⟨?_, ?_, ?_, ?_, ?_, ?_, ?_, ?_⟩
  · unfold fetchUserUpdates
    cases returning with
    | true => simp
    | false =>
        cases hq : query 0 with
        | rows n => simp
        | failed c m s =>
            cases h406 : detects406 c m s with
            | false => simp [h406]
            | true =>
                cases refreshOk with
                | false => simp [h406]
                | true =>
                    cases hq1 : query 1 with
                    | rows n => simp [h406, hq1]
                    | failed c2 m2 s2 => simp [h406, hq1]
  · intro c m s hret hq h406 href
    subst hret
    subst href
    unfold fetchUserUpdates
    rw [hq]
    cases hq1 : query 1 with
    | rows n => simp [h406, hq1]
    | failed c2 m2 s2 => simp [h406, hq1]
  · intro c m s hret hq h406 href
    subst hret
    subst href
    unfold fetchUserUpdates
    rw [hq]
    simp [h406]
  · intro c m s c2 m2 s2 hret hq h406 href hq1
    subst hret
    subst href
    unfold fetchUserUpdates
    rw [hq]
    simp [h406, hq1]
  · intro c m s hret hq h406
    subst hret
    unfold fetchUserUpdates
    rw [hq]
    simp [h406]
  · unfold supabaseGlobalFetch
    cases hflag : returningFlag && strContains url "/auth/" with
    | true =>
        cases hcu : cu.isSome || cs.isSome with
        | true => simp [hcu]
        | false => simp [hcu]
    | false =>
        cases h406 : (net 0).status == 406 with
        | false => simp [h406]
        | true =>
            cases rt with
            | none => simp [h406]
            | some tok =>
                cases options.headers with
                | none => simp [h406]
                | some a => simp [h406]
  · intro hflag h406 hrt
    subst hrt
    unfold supabaseGlobalFetch
    rw [hflag]
    simp [h406]
  · intro tok hflag h406 hrt
    subst hrt
    unfold supabaseGlobalFetch
    rw [hflag]
    cases options.headers with
    | none => simp [h406]
    | some a => simp [h406]

/-- Witness for the amended C2: a 406 first response with a successful
refresh, yielding exactly one retry whose response is surfaced, alongside
the dashboard counterpart. -/
theorem c2_single_refresh_single_retry_witness :
    (fetchUserUpdates false (fun _ => QueryOutcome.failed "406" "m" 406) true).2.1 = 2 ∧
    (fetchUserUpdates false (fun _ => QueryOutcome.failed "406" "m" 406) true).2.2 = 1 ∧
    (supabaseGlobalFetch false none none (some "T")
      (fun _ => ⟨406, "b"⟩) "/rest/v1/x" ⟨some none⟩).1 = (fun _ => (⟨406, "b"⟩ : Resp)) 1 ∧
    (supabaseGlobalFetch false none none (some "T")
      (fun _ => ⟨406, "b"⟩) "/rest/v1/x" ⟨some none⟩).2.2 = 1 := by
  have h := c2_single_refresh_single_retry
    (fun _ => QueryOutcome.failed "406" "m" 406) true false false none none (some "T")
    (fun _ => ⟨406, "b"⟩) "/rest/v1/x" ⟨some none⟩
  have hd := h.2.1 "406" "m" 406 rfl rfl (by decide) rfl
  have hs := h.2.2.2.2.2.2.2 "T" (by decide) rfl rfl
  exact ⟨hd.1, hd.2, hs.1, hs.2.2⟩

/-- C1 counterexample: while the ReturningFlag is active and the URL
contains the auth segment, the supabase client's wrapped fetch substitutes
a fabricated 200 response built from the cached user and forwards nothing
to the underlying fetch, whose response would have had status 500 - the
wrapped fetch is not extensionally equal to the underlying one. -/
theorem c1_counterexample :
    supabaseGlobalFetch true (some "u") none none (fun _ => ⟨500, "e"⟩)
      "x/auth/y" ⟨none⟩ = (⟨200, syntheticAuthBody (some "u") none⟩, [], 0) ∧
    ((fun _ => (⟨500, "e"⟩ : Resp)) 0).status ≠ (200 : Nat) := by
  refine ⟨rfl, by decide⟩

/-- C1 (amended): the corrected `applySwitchPreventionToFetch` wrapper is
extensionally equal to the underlying fetch - every request is forwarded
unmodified and no synthetic response is substituted. The supabase client's
own `global.fetch`, however, retains a synthetic-response path: while the
ReturningFlag is active and the URL contains the auth segment, it forwards
nothing and fabricates a 200 response; in every other case the first
forwarded call carries the original url and options unmodified. -/
theorem c1_final_guard_forwards {α ρ : Type} (originalFetch : α → ρ) (args : α)
    (returningFlag : Bool) (cu cs rt : Option String) (net : Nat → Resp)
    (url : String) (options : SbOptions) :
    (applySwitchPreventionFetchFinal originalFetch args = originalFetch args) ∧
    ((returningFlag && strContains url "/auth/") = true →
      (supabaseGlobalFetch returningFlag cu cs rt net url options).2.1 = [] ∧
      (supabaseGlobalFetch returningFlag cu cs rt net url options).1.status = 200) ∧
    ((returningFlag && strContains url "/auth/") = false →
      ∃ calls, (supabaseGlobalFetch returningFlag cu cs rt net url options).2.1 =
        (url, options) :: calls) := by
  refine ⟨rfl, ?_, ?_⟩
  · intro hflag
    unfold supabaseGlobalFetch
    rw [hflag]
    cases hcu : cu.isSome || cs.isSome with
    | true => simp [hcu]
    | false => simp [hcu]
  · intro hflag
    unfold supabaseGlobalFetch
    rw [hflag]
    cases h406 : (net 0).status == 406 with
    | false => exact ⟨[], by simp [h406]⟩
    | true =>
        cases rt with
        | none => exact ⟨[], by simp [h406]⟩
        | some tok =>
            cases options.headers with
            | none => exact ⟨[(url, options)], by simp [h406]⟩
            | some a => exact ⟨[(url, ⟨some (some ("Bearer " ++ tok))⟩)], by simp [h406]⟩

/-- Witness for the amended C1: the synthetic branch at a concrete input
and the pass-through branch at another. -/
theorem c1_final_guard_forwards_witness :
    applySwitchPreventionFetchFinal (fun n : Nat => n + 1) 3 = 4 ∧
    (supabaseGlobalFetch true (some "u") none none (fun _ => ⟨500, "e"⟩)
      "x/auth/y" ⟨none⟩).2.1 = [] ∧
    (∃ calls, (supabaseGlobalFetch false none none none (fun _ => ⟨200, "ok"⟩)
      "/rest/v1/x" ⟨none⟩).2.1 = ("/rest/v1/x", (⟨none⟩ : SbOptions)) :: calls) := by
  have h1 := c1_final_guard_forwards (fun n : Nat => n + 1) 3 true (some "u") none
    none (fun _ => ⟨500, "e"⟩) "x/auth/y" ⟨none⟩
  have h2 := c1_final_guard_forwards (fun n : Nat => n + 1) 3 false none none
    none (fun _ => ⟨200, "ok"⟩) "/rest/v1/x" ⟨none⟩
  exact ⟨h1.1, (h1.2.1 (by decide)).1, h2.2.2 (by decide)⟩

end Aditi
